import Mathlib

/-!
Verification development for the face registration/verification demo
(`Faceapi-with-Service-Worker-v8`).

The repository is a browser application.  The algorithmic core consists of

* the face service (`src/unnamed/part_002`, module `faceService.js`):
  mode flag `action`, the accumulated `registeredDescriptors`, the
  registration quota logic (`handleRegister`), the verification decision
  (`handleVerify`, `euclideanDistance`), `resetRegistration`,
  `setAction` and `setDescriptors`;
* the detection-result callback of `src/js/index.js`, which routes a
  freshly extracted descriptor to `handleRegister` or `handleVerify`
  according to the current action;
* the UI mode transitions of `src/js/modules/setupUI.js`;
* the descriptor-file import of `src/js/modules/jsonLoader.js`;
* two frame-pipeline loops: the `step` loop of
  `src/js/faceapi_warmup.js` (guarded by the `isDetectingFrame` flag)
  and the `processNextFrame` loop of the detection module
  (`src/unnamed/part_003`), which schedules on a fixed interval.

Descriptors are embedded as lists of rationals (`Desc`); JavaScript
`Float32Array` values are finite numeric vectors, and none of the
verified properties depend on float rounding.  Effectful statements
(toasts, camera control, downloads) are embedded as explicit effect
lists returned next to the new state.
-/

/-- A face descriptor: an ordered numeric vector (JS `Float32Array`,
modelled with exact rationals). -/
abbrev Desc := List ℚ

/-- The session mode held in the mutable `action` variable of
`faceService.js`.  `idle` models the empty string, `register` the string
value used after the register button, `verify` the one used after the
verify button. -/
inductive ActionMode
  | idle
  | register
  | verify
deriving DecidableEq, Repr

/-- The mutable module state of `faceService.js` (`src/unnamed/part_002`):
`action`, `registeredDescriptors` and `registrationCompleted`. -/
structure FaceState where
  action : ActionMode
  registeredDescriptors : List Desc
  registrationCompleted : Bool
deriving DecidableEq, Repr

/-- Observable side effects of the face service and UI handlers.  Toast
messages are identified by constructor (the JS strings are noted in the
source); `toastVerified` records the reference entry whose distance is
shown in the success message.  `download` records the descriptor data
serialized for the JSON download (`registeredDescriptors.map(d =>
Array.from(d))`). -/
inductive Effect
  | toastRegistrationCompleted
  | toastUploadBeforeVerify
  | toastVerified (saved : Desc)
  | toastNotRecognized
  | toastRegistrationMode
  | toastVerificationMode
  | toastCameraStarted
  | toastCameraStopped
  | toastCaptureProblems
  | stopDetection
  | stopCamera
  | startCamera
  | hideUploadModule
  | showUploadModule
  | download (data : List Desc)
deriving DecidableEq, Repr

/-- Quota of captures, `const maxCaptures = 3` in `faceService.js`. -/
def maxCaptures : Nat := 3

/-- Match threshold, `const threshold = 0.3` in `faceService.js`. -/
def threshold : ℚ := 3 / 10

/-- The sum `Σ (a i - b i)^2` computed by the loop body of
`euclideanDistance` in `faceService.js`.  The JS loop runs over the
indices of `a`; the function is only ever invoked on vectors of equal
length (the caller skips unequal lengths first), which the pairwise
`zip` captures exactly. -/
def sumSqDiff (a b : Desc) : ℚ :=
  (a.zip b).foldl (fun sum p => sum + (p.1 - p.2) ^ 2) 0

/-- `euclideanDistance` of `faceService.js`: `Math.sqrt(sum)`. -/
noncomputable def euclideanDistance (a b : Desc) : ℝ :=
  Real.sqrt (sumSqDiff a b : ℝ)

/-- The match test of `handleVerify`: `distance < threshold` (strict). -/
def isMatch (descriptor saved : Desc) : Prop :=
  euclideanDistance descriptor saved < (threshold : ℝ)

/-- `resetRegistration` of `faceService.js`: clears the accumulated
descriptors and the completion flag. -/
def resetRegistration (s : FaceState) : FaceState :=
  { s with registeredDescriptors := [], registrationCompleted := false }

/-- `setAction` of `faceService.js`. -/
def setAction (s : FaceState) (mode : ActionMode) : FaceState :=
  { s with action := mode }

/-- `setDescriptors` of `faceService.js`: `resetRegistration()` followed
by installing the loaded descriptors wholesale. -/
def setDescriptors (s : FaceState) (descriptors : List Desc) : FaceState :=
  { resetRegistration s with registeredDescriptors := descriptors }

/-- Decidability of the match test: `sqrt s < t` with `t > 0` is
equivalent to `s < t ^ 2`, which is a rational comparison. -/
instance (descriptor saved : Desc) : Decidable (isMatch descriptor saved) :=
  decidable_of_iff (sumSqDiff descriptor saved < threshold ^ 2) (by
    rw [isMatch, euclideanDistance,
      Real.sqrt_lt' (by norm_num [threshold] : (0 : ℝ) < (threshold : ℚ))]
    constructor <;> intro h <;> exact_mod_cast h)

/-- The search loop of `handleVerify` in `faceService.js`: walk the
registered descriptors in insertion order, skip entries whose length
differs from the submitted descriptor, and stop at the first entry whose
Euclidean distance is below the threshold.  Returns the matched entry
(whose distance the success toast reports), or `none` when the loop
exhausts the list. -/
def findFirstMatch (refs : List Desc) (descriptor : Desc) : Option Desc :=
  match refs with
  | [] => none
  | saved :: rest =>
    if descriptor.length = saved.length ∧ isMatch descriptor saved then some saved
    else findFirstMatch rest descriptor

/-- `handleRegister` of `faceService.js`.  The JS guard is
`if (!descriptor || registrationCompleted) return;`: only an absent
(null/undefined, here `none`) descriptor or a completed registration
blocks the append — a `Float32Array` is truthy even at length 0.
On reaching the quota the state is finalized, the action cleared,
detection and camera stopped and the descriptor JSON offered as a
download. -/
def handleRegister (s : FaceState) (descriptor : Option Desc) : FaceState × List Effect :=
  match descriptor with
  | none => (s, [])
  | some d =>
    if s.registrationCompleted then (s, [])
    else
      let descs := s.registeredDescriptors ++ [d]
      if maxCaptures ≤ descs.length then
        ({ action := ActionMode.idle, registeredDescriptors := descs,
           registrationCompleted := true },
         [Effect.toastRegistrationCompleted, Effect.stopDetection, Effect.stopCamera,
          Effect.download descs])
      else
        ({ s with registeredDescriptors := descs }, [])

/-- `handleVerify` of `faceService.js`.  With no registered descriptors
it only shows the info toast asking for an upload.  Otherwise it runs
the first-match search; on success it stops detection and camera, shows
the verified toast and clears the action, on failure it shows the retry
toast and keeps going. -/
def handleVerify (s : FaceState) (descriptor : Desc) : FaceState × List Effect :=
  if s.registeredDescriptors.length = 0 then
    (s, [Effect.toastUploadBeforeVerify])
  else
    match findFirstMatch s.registeredDescriptors descriptor with
    | some saved =>
      ({ s with action := ActionMode.idle },
       [Effect.stopDetection, Effect.stopCamera, Effect.toastVerified saved])
    | none => (s, [Effect.toastNotRecognized])

/-- The detection-result callback registered in `src/js/index.js`: when
the payload carries a descriptor, route it to `handleRegister` or
`handleVerify` according to the current action; otherwise do nothing.
(The unconditional canvas rendering is out-of-scope UI and not
modelled.) -/
def onDetection (s : FaceState) (descriptor : Option Desc) : FaceState × List Effect :=
  match descriptor with
  | some d =>
    if s.action = ActionMode.register then handleRegister s (some d)
    else if s.action = ActionMode.verify then handleVerify s d
    else (s, [])
  | none => (s, [])

/-- The start-camera click handler of `setupUI.js`:
`setAction(''); startCamera(); showToast('Camera started', 'info')`. -/
def clickStartCamera (s : FaceState) : FaceState × List Effect :=
  (setAction s ActionMode.idle, [Effect.startCamera, Effect.toastCameraStarted])

/-- The stop-camera click handler of `setupUI.js`:
`stopCamera(); setAction(''); showToast('Camera stopped', 'info')`. -/
def clickStopCamera (s : FaceState) : FaceState × List Effect :=
  (setAction s ActionMode.idle, [Effect.stopCamera, Effect.toastCameraStopped])

/-- The register-face click handler of `setupUI.js`:
`setAction('register'); resetRegistration();` then toast, hiding the
upload module and `startCamera()`. -/
def clickRegisterFace (s : FaceState) : FaceState × List Effect :=
  (resetRegistration (setAction s ActionMode.register),
   [Effect.toastRegistrationMode, Effect.hideUploadModule, Effect.startCamera])

/-- The verify-face click handler of `setupUI.js`:
`setAction('verify');` then toast and showing the upload module.  It
does not call `resetRegistration`. -/
def clickVerifyFace (s : FaceState) : FaceState × List Effect :=
  (setAction s ActionMode.verify,
   [Effect.toastVerificationMode, Effect.showUploadModule])

/-- The length-guarded distance used to express that unequal-length
vectors are never compared: `none` marks the forbidden comparison (the
spec invariant makes such a pair incomparable), `some` carries the
squared distance actually computed by `euclideanDistance`. -/
def guardedDistanceSq (a b : Desc) : Option ℚ :=
  if a.length = b.length then some (sumSqDiff a b) else none

/-- Instrumented variant of the `handleVerify` search loop: identical
control flow, but the distance is taken through `guardedDistanceSq`, so
the whole search returns `none` exactly when some comparison would have
paired vectors of unequal length.  The outer `Option` is the error
channel, the inner one the search result. -/
def findFirstMatchChecked (refs : List Desc) (descriptor : Desc) : Option (Option Desc) :=
  match refs with
  | [] => some none
  | saved :: rest =>
    if descriptor.length = saved.length then
      match guardedDistanceSq descriptor saved with
      | none => none
      | some dsq =>
        if dsq < threshold ^ 2 then some (some saved)
        else findFirstMatchChecked rest descriptor
    else findFirstMatchChecked rest descriptor

/-- State of the frame-pipeline loop of `faceapi_warmup.js`
(`video_face_detection`): the video flags consulted by the guard, the
`isDetectingFrame` flag and — as specification instrumentation — the
number of detection requests submitted to the worker whose result has
not yet arrived. -/
structure PipelineState where
  paused : Bool
  ended : Bool
  isDetectingFrame : Bool
  inFlight : Nat
deriving DecidableEq, Repr

/-- The `step` callback of `video_face_detection` in
`faceapi_warmup.js`: return untouched when the video is paused or
ended; when a detection is already running, only re-arm the next
animation frame (no submission); otherwise capture the frame, set
`isDetectingFrame` and post the `DETECT_FACES` request (modelled by the
`inFlight` increment). -/
def step (s : PipelineState) : PipelineState :=
  if s.paused || s.ended then s
  else if s.isDetectingFrame then s
  else { s with isDetectingFrame := true, inFlight := s.inFlight + 1 }

/-- The tail of the `DETECTION_RESULT` branch of the worker message
listener in `faceapi_warmup.js`: clear `isDetectingFrame` and re-arm
the loop (`requestAnimationFrame(videoDetectionStep)`).  The arriving
result retires the in-flight request. -/
def onDetectionResult (s : PipelineState) : PipelineState :=
  { s with isDetectingFrame := false, inFlight := s.inFlight - 1 }

/-- External events driving the `faceapi_warmup.js` pipeline: a
scheduling tick (`requestAnimationFrame` firing `step`), the arrival of
a detection result, and the video pausing or resuming. -/
inductive PipelineEvent
  | tick
  | result
  | pause
  | play
deriving DecidableEq, Repr

/-- Event application for the `faceapi_warmup.js` pipeline. -/
def applyEvent (s : PipelineState) : PipelineEvent → PipelineState
  | PipelineEvent.tick => step s
  | PipelineEvent.result => onDetectionResult s
  | PipelineEvent.pause => { s with paused := true }
  | PipelineEvent.play => { s with paused := false }

/-- Run the `faceapi_warmup.js` pipeline over a sequence of events. -/
def runPipeline (s : PipelineState) (events : List PipelineEvent) : PipelineState :=
  events.foldl applyEvent s

/-- Initial pipeline state: playing video, no detection in flight
(`var isDetectingFrame = false;`). -/
def initPipelineState : PipelineState :=
  { paused := false, ended := false, isDetectingFrame := false, inFlight := 0 }

/-- State of the interval-scheduled detection loop of the detection
module (`src/unnamed/part_003`): its module flags, the video state it
consults, and the same in-flight instrumentation as `PipelineState`.
This loop has no in-flight flag. -/
structure IntervalLoopState where
  isDetectionActive : Bool
  videoPlaying : Bool
  validDims : Bool
  inFlight : Nat
  consecutiveErrorCount : Nat
  frameCount : Nat
deriving DecidableEq, Repr

/-- The `processNextFrame` callback of `initDetection` in the detection
module (`src/unnamed/part_003`), scheduled every `FRAME_INTERVAL_MS`:
stop when detection was disabled; wait (reschedule) while the video has
no valid dimensions; on a capture error bump the consecutive-error
counter, toast after more than 5 and reset it, and reschedule; on
success reset the counter and post the `DETECT_FACES` request (the
`inFlight` increment) — without consulting any in-flight state — then
reschedule while the video keeps playing, else deactivate.  `captureOk`
abstracts whether `getImageData` produced usable data. -/
def processNextFrame (s : IntervalLoopState) (captureOk : Bool) :
    IntervalLoopState × List Effect :=
  if s.isDetectionActive = false then (s, [])
  else if s.validDims = false then (s, [])
  else
    let s1 := { s with frameCount := s.frameCount + 1 }
    if captureOk = false then
      if 5 < s1.consecutiveErrorCount + 1 then
        ({ s1 with consecutiveErrorCount := 0 }, [Effect.toastCaptureProblems])
      else
        ({ s1 with consecutiveErrorCount := s1.consecutiveErrorCount + 1 }, [])
    else
      let s2 := { s1 with consecutiveErrorCount := 0, inFlight := s1.inFlight + 1 }
      if s2.videoPlaying then (s2, [])
      else ({ s2 with isDetectionActive := false }, [])

/-- Result arrival for the interval loop: the `DETECTION_RESULT` branch
of the `workerController.js` listener retires the request (it clears no
flag — the loop keeps no in-flight state). -/
def onIntervalResult (s : IntervalLoopState) : IntervalLoopState :=
  { s with inFlight := s.inFlight - 1 }

/-- A JavaScript number as produced by the `Float32Array` element
coercion: `some q` is an ordinary number, `none` is `NaN`.  `JSON.parse`
output coerces as `Number` does: numbers stay themselves, `null` becomes
`0`, booleans become `1`/`0`.  Strings and nested composites are
modelled as `NaN` (JS would parse numeric strings; no descriptor file
entry relies on that, and non-numeric ones coerce to `NaN`). -/
abbrev JsNum := Option ℚ

/-- A parsed JSON value as handled by `initJsonLoader` in
`src/js/modules/jsonLoader.js`.  Object fields are kept as their
`Object.values` sequence (insertion order); the loader never looks at
keys.  A JSON string is kept as its character count, since
`Object.values` of a string is its list of one-character strings and
the loader treats every string the same way. -/
inductive JsonVal
  | jnull
  | jbool (b : Bool)
  | jnum (q : ℚ)
  | jstr (chars : Nat)
  | jarr (items : List JsonVal)
  | jobj (values : List JsonVal)

/-- `Number` coercion applied elementwise by `new Float32Array(...)`. -/
def jsToNumber : JsonVal → JsNum
  | JsonVal.jnum q => some q
  | JsonVal.jnull => some 0
  | JsonVal.jbool b => some (if b then 1 else 0)
  | _ => none

/-- `Object.values(parsed)` as used by the loader.  `Object.values` of
an array is its element list, of an object its field values, of a
string its one-character strings, of a number or boolean the empty
list; on `null` it throws (`none`), which the loader's `catch` turns
into the file-level error. -/
def objectValues : JsonVal → Option (List JsonVal)
  | JsonVal.jnull => none
  | JsonVal.jbool _ => some []
  | JsonVal.jnum _ => some []
  | JsonVal.jstr chars => some (List.replicate chars (JsonVal.jstr 1))
  | JsonVal.jarr items => some items
  | JsonVal.jobj values => some values

/-- The per-entry conversion of `initJsonLoader`: an array entry becomes
`new Float32Array(item)`, an object entry (note `item &&` excludes
`null` before the `typeof item === 'object'` test) becomes
`new Float32Array(Object.values(item))`, and anything else becomes
`null` — dropped by the subsequent `filter`, without any per-entry
warning.  No numeric validation happens: element values are only
coerced. -/
def parseEntry : JsonVal → Option (List JsNum)
  | JsonVal.jarr items => some (items.map jsToNumber)
  | JsonVal.jobj values => some (values.map jsToNumber)
  | _ => none

/-- Overall outcome of the `change` handler of `initJsonLoader`:
either a descriptor set is installed (via `setDescriptors`, with a
success toast), or the empty-result error toast is shown and nothing is
installed, or a thrown error was caught (parse failure,
`Object.values(null)`) and the failure toast is shown. -/
inductive ImportOutcome
  | installed (descriptors : List (List JsNum))
  | emptyError
  | parseError
deriving DecidableEq, Repr

/-- The descriptor import of `initJsonLoader` in `jsonLoader.js`,
starting from the parsed JSON value: map entries through the per-entry
conversion, drop the `null` results, fail when no descriptors remain,
otherwise install the survivors in order. -/
def importDescriptors (parsed : JsonVal) : ImportOutcome :=
  match objectValues parsed with
  | none => ImportOutcome.parseError
  | some values =>
    let descriptors := values.filterMap parseEntry
    if descriptors.length = 0 then ImportOutcome.emptyError
    else ImportOutcome.installed descriptors

/-- Whether an entry passes the loader's array-or-object test
(`Array.isArray(item) || (item && typeof item === 'object')`). -/
def isArrayOrObjectEntry : JsonVal → Bool
  | JsonVal.jarr _ => true
  | JsonVal.jobj _ => true
  | _ => false

/-- The export produced at registration completion (`handleRegister` in
`faceService.js`): `JSON.stringify(registeredDescriptors.map(d =>
Array.from(d)))`, i.e. the JSON array of the descriptor arrays in
order.  (`JSON.stringify` followed by `JSON.parse` is the identity on
this value; the model works with the JSON value directly.) -/
def exportDescriptors (descs : List Desc) : JsonVal :=
  JsonVal.jarr (descs.map (fun d => JsonVal.jarr (d.map JsonVal.jnum)))

/-- Invariant tying the `isDetectingFrame` flag of the
`faceapi_warmup.js` loop to the number of in-flight requests. -/
def PipelineInv (s : PipelineState) : Prop :=
  s.inFlight ≤ 1 ∧ (s.isDetectingFrame = true ↔ s.inFlight = 1)

/-- A sequence of present-descriptor submissions to `handleRegister`
(each detection result in register mode calls it once). -/
def runRegister (s : FaceState) (ds : List Desc) : FaceState :=
  ds.foldl (fun s1 d => (handleRegister s1 (some d)).1) s

theorem isMatch_iff_sumSq (d saved : Desc) :
    isMatch d saved ↔ sumSqDiff d saved < threshold ^ 2 := by
  rw [isMatch, euclideanDistance,
    Real.sqrt_lt' (by norm_num [threshold] : (0 : ℝ) < (threshold : ℚ))]
  constructor <;> intro h <;> exact_mod_cast h

theorem findFirstMatch_isSome_iff (refs : List Desc) (d : Desc) :
    (findFirstMatch refs d).isSome = true
      ↔ ∃ e ∈ refs, d.length = e.length ∧ isMatch d e := by
  induction refs with
  | nil => simp [findFirstMatch]
  | cons saved rest ih =>
    by_cases h : d.length = saved.length ∧ isMatch d saved
    · rw [findFirstMatch, if_pos h]
      constructor
      · intro _
        exact ⟨saved, List.mem_cons_self saved rest, h⟩
      · intro _
        rfl
    · rw [findFirstMatch, if_neg h, ih]
      constructor
      · rintro ⟨e, he, hq⟩
        exact ⟨e, List.mem_cons_of_mem saved he, hq⟩
      · rintro ⟨e, he, hq⟩
        rcases List.mem_cons.mp he with rfl | he
        · exact absurd hq h
        · exact ⟨e, he, hq⟩

theorem findFirstMatch_eq_some_iff (refs : List Desc) (d e : Desc) :
    findFirstMatch refs d = some e
      ↔ ∃ pre suf, refs = pre ++ e :: suf
          ∧ (d.length = e.length ∧ isMatch d e)
          ∧ ∀ x ∈ pre, ¬(d.length = x.length ∧ isMatch d x) := by
  induction refs with
  | nil =>
    constructor
    · intro h
      exact absurd h (by simp [findFirstMatch])
    · rintro ⟨pre, suf, habs, -, -⟩
      cases pre <;> simp at habs
  | cons saved rest ih =>
    by_cases h : d.length = saved.length ∧ isMatch d saved
    · rw [findFirstMatch, if_pos h]
      constructor
      · intro he
        injection he with he
        subst he
        exact ⟨[], rest, rfl, h, by simp⟩
      · rintro ⟨pre, suf, heq, hq, hpre⟩
        cases pre with
        | nil =>
          simp only [List.nil_append, List.cons.injEq] at heq
          exact congrArg some heq.1
        | cons p ps =>
          simp only [List.cons_append, List.cons.injEq] at heq
          obtain ⟨hp, -⟩ := heq
          subst hp
          exact absurd h (hpre saved (List.mem_cons_self saved ps))
    · rw [findFirstMatch, if_neg h, ih]
      constructor
      · rintro ⟨pre, suf, heq, hq, hpre⟩
        refine ⟨saved :: pre, suf, by rw [heq, List.cons_append], hq, ?_⟩
        intro x hx
        rcases List.mem_cons.mp hx with rfl | hx
        · exact h
        · exact hpre x hx
      · rintro ⟨pre, suf, heq, hq, hpre⟩
        cases pre with
        | nil =>
          simp only [List.nil_append, List.cons.injEq] at heq
          obtain ⟨h1, -⟩ := heq
          subst h1
          exact absurd hq h
        | cons p ps =>
          simp only [List.cons_append, List.cons.injEq] at heq
          obtain ⟨hp, hrest⟩ := heq
          exact ⟨ps, suf, hrest, hq, fun x hx => hpre x (List.mem_cons_of_mem p hx)⟩

theorem findFirstMatch_some_length (refs : List Desc) (d e : Desc)
    (h : findFirstMatch refs d = some e) : d.length = e.length := by
  induction refs with
  | nil => exact absurd h (by simp [findFirstMatch])
  | cons saved rest ih =>
    by_cases hq : d.length = saved.length ∧ isMatch d saved
    · rw [findFirstMatch, if_pos hq] at h
      injection h with h
      subst h
      exact hq.1
    · rw [findFirstMatch, if_neg hq] at h
      exact ih h

theorem findFirstMatch_filter (refs : List Desc) (d : Desc) :
    findFirstMatch refs d
      = findFirstMatch (refs.filter (fun e => d.length == e.length)) d := by
  induction refs with
  | nil => rfl
  | cons saved rest ih =>
    by_cases hl : d.length = saved.length
    · rw [List.filter_cons_of_pos (by simpa using hl)]
      by_cases hm : isMatch d saved
      · rw [findFirstMatch, if_pos ⟨hl, hm⟩, findFirstMatch, if_pos ⟨hl, hm⟩]
      · rw [findFirstMatch, if_neg (fun hc => hm hc.2),
          findFirstMatch, if_neg (fun hc => hm hc.2)]
        exact ih
    · rw [List.filter_cons_of_neg (by simpa using hl),
        findFirstMatch, if_neg (fun hc => hl hc.1)]
      exact ih

theorem findFirstMatchChecked_eq (refs : List Desc) (d : Desc) :
    findFirstMatchChecked refs d = some (findFirstMatch refs d) := by
  induction refs with
  | nil => rfl
  | cons saved rest ih =>
    by_cases hl : d.length = saved.length
    · rw [findFirstMatchChecked, if_pos hl, guardedDistanceSq, if_pos hl]
      dsimp only
      by_cases hm : sumSqDiff d saved < threshold ^ 2
      · rw [if_pos hm, findFirstMatch, if_pos ⟨hl, (isMatch_iff_sumSq d saved).mpr hm⟩]
      · rw [if_neg hm, findFirstMatch,
          if_neg (fun hc => hm ((isMatch_iff_sumSq d saved).mp hc.2)), ih]
    · rw [findFirstMatchChecked, if_neg hl, findFirstMatch,
        if_neg (fun hc => hl hc.1)]
      exact ih

theorem applyEvent_preserves_inv (s : PipelineState) (e : PipelineEvent)
    (h : PipelineInv s) : PipelineInv (applyEvent s e) := by
  obtain ⟨h1, h2⟩ := h
  cases e with
  | tick =>
    show PipelineInv (step s)
    rw [step]
    split_ifs with hp hf
    · exact ⟨h1, h2⟩
    · exact ⟨h1, h2⟩
    · have h0 : s.inFlight = 0 := by
        rcases Nat.eq_or_lt_of_le h1 with h3 | h3
        · exact absurd (h2.mpr h3) hf
        · omega
      exact ⟨by simp [h0], by simp [h0]⟩
  | result =>
    refine ⟨by simp [applyEvent, onDetectionResult]; omega, ?_⟩
    simp only [applyEvent, onDetectionResult, Bool.false_eq_true, false_iff]
    omega
  | pause => exact ⟨h1, h2⟩
  | play => exact ⟨h1, h2⟩

theorem runPipeline_preserves_inv (events : List PipelineEvent) :
    ∀ s : PipelineState, PipelineInv s → PipelineInv (runPipeline s events) := by
  induction events with
  | nil => exact fun s h => h
  | cons e rest ih =>
    intro s h
    exact ih (applyEvent s e) (applyEvent_preserves_inv s e h)

theorem handleRegister_of_completed (s : FaceState) (d : Option Desc)
    (hc : s.registrationCompleted = true) : handleRegister s d = (s, []) := by
  cases d with
  | none => rfl
  | some d => simp [handleRegister, hc]

theorem runRegister_of_completed (ds : List Desc) :
    ∀ s : FaceState, s.registrationCompleted = true → runRegister s ds = s := by
  induction ds with
  | nil => exact fun s _ => rfl
  | cons d rest ih =>
    intro s hc
    show runRegister ((handleRegister s (some d)).1) rest = s
    rw [handleRegister_of_completed s (some d) hc]
    exact ih s hc

theorem runRegister_spec (ds : List Desc) :
    ∀ s : FaceState, s.registrationCompleted = false →
      s.registeredDescriptors.length < maxCaptures →
      ((runRegister s ds).registrationCompleted = true
          ↔ maxCaptures ≤ s.registeredDescriptors.length + ds.length)
      ∧ (runRegister s ds).registeredDescriptors
          = s.registeredDescriptors
            ++ ds.take (maxCaptures - s.registeredDescriptors.length) := by
  induction ds with
  | nil =>
    intro s hc hlen
    refine ⟨⟨fun h => ?_, fun h => ?_⟩, by simp [runRegister]⟩
    · simp [runRegister, hc] at h
    · simp only [List.length_nil] at h
      exact absurd h (Nat.not_le.mpr (by omega))
  | cons d rest ih =>
    intro s hc hlen
    have hstep : runRegister s (d :: rest)
        = runRegister ((handleRegister s (some d)).1) rest := rfl
    by_cases hq : maxCaptures ≤ s.registeredDescriptors.length + 1
    · have hs1 : (handleRegister s (some d)).1
          = { action := ActionMode.idle,
              registeredDescriptors := s.registeredDescriptors ++ [d],
              registrationCompleted := true } := by
        simp only [handleRegister]
        rw [if_neg (by simp [hc]), if_pos (by simpa using hq)]
      rw [hstep, hs1, runRegister_of_completed rest _ rfl]
      refine ⟨⟨fun _ => by simp only [List.length_cons]; omega, fun _ => rfl⟩, ?_⟩
      have hml : maxCaptures - s.registeredDescriptors.length = 1 := by omega
      rw [hml]
      simp [List.take]
    · have hs1 : (handleRegister s (some d)).1
          = { s with registeredDescriptors := s.registeredDescriptors ++ [d] } := by
        simp only [handleRegister]
        rw [if_neg (by simp [hc]), if_neg (by simpa using hq)]
      have hlen1 :
          ({ s with registeredDescriptors := s.registeredDescriptors ++ [d] } :
            FaceState).registeredDescriptors.length < maxCaptures := by
        simp only [List.length_append, List.length_cons, List.length_nil]
        omega
      obtain ⟨ih1, ih2⟩ := ih { s with
        registeredDescriptors := s.registeredDescriptors ++ [d] } hc hlen1
      rw [hstep, hs1]
      constructor
      · rw [ih1]
        simp only [List.length_append, List.length_cons, List.length_nil]
        omega
      · rw [ih2]
        rw [List.append_assoc]
        congr 1
        have hlen2 : (s.registeredDescriptors ++ [d]).length
            = s.registeredDescriptors.length + 1 := by simp
        have harith : maxCaptures - s.registeredDescriptors.length
            = (maxCaptures - (s.registeredDescriptors.length + 1)) + 1 := by omega
        rw [hlen2, harith, List.take_succ_cons]
        rfl

/-- C1 (amended): the `faceapi_warmup.js` detection loop enforces the
single-in-flight backpressure policy: along every event sequence from
the initial state at most one detection request is in flight; a
scheduling tick that fires while `isDetectingFrame` is set changes
nothing (it submits no request, only re-arms); and the flag is cleared
exactly by result arrival. -/
theorem warmup_pipeline_backpressure :
    (∀ events : List PipelineEvent,
        (runPipeline initPipelineState events).inFlight ≤ 1)
    ∧ (∀ s : PipelineState, s.isDetectingFrame = true → step s = s)
    ∧ (∀ s : PipelineState, (onDetectionResult s).isDetectingFrame = false) := by
  refine ⟨?_, ?_, ?_⟩
  · intro events
    exact (runPipeline_preserves_inv events initPipelineState
      ⟨by simp [initPipelineState], by simp [initPipelineState]⟩).1
  · intro s hf
    rw [step]
    by_cases hp : (s.paused || s.ended) = true
    · rw [if_pos hp]
    · rw [if_neg hp, if_pos hf]
  · intro s
    rfl

/-- C1 witness: the backpressure bound evaluated on a concrete event
trace, and the skipped-tick clause applied to a concrete in-flight
state. -/
theorem warmup_pipeline_backpressure_witness :
    (runPipeline initPipelineState
        [PipelineEvent.tick, PipelineEvent.tick, PipelineEvent.result,
         PipelineEvent.tick]).inFlight ≤ 1
    ∧ ({ paused := false, ended := false, isDetectingFrame := true,
          inFlight := 1 } : PipelineState).isDetectingFrame = true
    ∧ step { paused := false, ended := false, isDetectingFrame := true, inFlight := 1 }
        = { paused := false, ended := false, isDetectingFrame := true, inFlight := 1 } :=
  ⟨warmup_pipeline_backpressure.1 _, rfl,
   warmup_pipeline_backpressure.2.1 _ rfl⟩

/-- C1 counterexample: the interval-scheduled loop of the detection
module (`src/unnamed/part_003`) keeps no in-flight state — two
consecutive ticks with no intervening result (result latency larger
than the tick interval) put two requests in flight at once, violating
the claimed bound for that loop. -/
theorem interval_loop_exceeds_one_inflight :
    ¬ ((processNextFrame
          (processNextFrame
            { isDetectionActive := true, videoPlaying := true, validDims := true,
              inFlight := 0, consecutiveErrorCount := 0, frameCount := 0 }
            true).1 true).1.inFlight ≤ 1) := by
  decide

/-- C2: quota correctness.  From a fresh enrollment state, along every
sequence of submitted descriptors the registration is finalized exactly
when the number of submissions reaches the quota 3 (so after the third
submission and not before), the accumulated set being the first three
submissions in order; and once `registrationCompleted` is set, any
further submission returns the state unchanged with no effects. -/
theorem enrollment_quota_correct :
    (∀ (s0 : FaceState) (ds : List Desc),
        s0.registeredDescriptors = [] → s0.registrationCompleted = false →
        ((runRegister s0 ds).registrationCompleted = true ↔ maxCaptures ≤ ds.length)
        ∧ (runRegister s0 ds).registeredDescriptors = ds.take maxCaptures)
    ∧ (∀ (s : FaceState) (d : Option Desc),
        s.registrationCompleted = true → handleRegister s d = (s, [])) := by
  constructor
  · intro s0 ds hd hc
    have h := runRegister_spec ds s0 hc (by rw [hd]; decide)
    rw [hd] at h
    simpa using h
  · exact fun s d hc => handleRegister_of_completed s d hc

/-- C2 witness: the quota behaviour on a fresh concrete state with
three copies of the descriptor `[1, 0]` submitted, and the
post-finalization no-op on a concrete finalized state. -/
theorem enrollment_quota_correct_witness :
    (⟨ActionMode.register, [], false⟩ : FaceState).registeredDescriptors = []
    ∧ (⟨ActionMode.register, [], false⟩ : FaceState).registrationCompleted = false
    ∧ (((runRegister ⟨ActionMode.register, [], false⟩
          [[1, 0], [1, 0], [1, 0]]).registrationCompleted = true)
        ↔ maxCaptures ≤ ([[1, 0], [1, 0], [1, 0]] : List Desc).length)
    ∧ handleRegister ⟨ActionMode.idle, [[1, 0]], true⟩ (some [1, 0])
        = (⟨ActionMode.idle, [[1, 0]], true⟩, []) :=
  ⟨rfl, rfl,
   (enrollment_quota_correct.1 ⟨ActionMode.register, [], false⟩
      [[1, 0], [1, 0], [1, 0]] rfl rfl).1,
   enrollment_quota_correct.2 ⟨ActionMode.idle, [[1, 0]], true⟩ (some [1, 0]) rfl⟩

/-- C3: the verification decision of `handleVerify`.  A match is found
iff some registered entry of equal length lies at Euclidean distance
strictly below the 0.3 threshold; the search returns exactly the first
qualifying entry in insertion order; a distance exactly equal to the
threshold does not match; and, on a loaded reference set, `handleVerify`
emits the success effects precisely when the search succeeds. -/
theorem verify_decision_rule (refs : List Desc) (d : Desc) :
    ((findFirstMatch refs d).isSome = true
        ↔ ∃ e ∈ refs, d.length = e.length ∧ euclideanDistance d e < (threshold : ℝ))
    ∧ (∀ e : Desc, findFirstMatch refs d = some e
        ↔ ∃ pre suf, refs = pre ++ e :: suf
            ∧ (d.length = e.length ∧ euclideanDistance d e < (threshold : ℝ))
            ∧ ∀ x ∈ pre, ¬(d.length = x.length ∧ euclideanDistance d x < (threshold : ℝ)))
    ∧ (∀ e : Desc, euclideanDistance d e = (threshold : ℝ)
        → ¬ euclideanDistance d e < (threshold : ℝ))
    ∧ (∀ s : FaceState, s.registeredDescriptors = refs → ¬ refs.length = 0 →
        ((∃ saved, (handleVerify s d).2
            = [Effect.stopDetection, Effect.stopCamera, Effect.toastVerified saved])
          ↔ (findFirstMatch refs d).isSome = true)) := by
  refine ⟨findFirstMatch_isSome_iff refs d, fun e => findFirstMatch_eq_some_iff refs d e,
    ?_, ?_⟩
  · intro e he
    rw [he]
    exact lt_irrefl _
  · intro s hs hne
    rw [handleVerify, hs, if_neg hne]
    cases hfm : findFirstMatch refs d with
    | none => simp
    | some saved => simp

/-- C3 witness: scenario `[[0,0]]` against `[0.1, 0.1]` (distance
`≈ 0.1414 < 0.3`) decided through the theorem, and the
exact-threshold clause applied to `[0]` against `[0.3]` (distance
exactly `0.3`). -/
theorem verify_decision_rule_witness :
    ¬ ([[0, 0]] : List Desc).length = 0
    ∧ ((∃ saved, (handleVerify ⟨ActionMode.verify, [[0, 0]], false⟩ [1/10, 1/10]).2
          = [Effect.stopDetection, Effect.stopCamera, Effect.toastVerified saved])
        ↔ (findFirstMatch [[0, 0]] [1/10, 1/10]).isSome = true)
    ∧ euclideanDistance [0] [3/10] = (threshold : ℝ)
    ∧ ¬ euclideanDistance [0] [3/10] < (threshold : ℝ) := by
  have hd : euclideanDistance [0] [3/10] = (threshold : ℝ) := by
    have h1 : sumSqDiff [0] [3/10] = 9/100 := by norm_num [sumSqDiff]
    rw [euclideanDistance, h1,
      show (((9 : ℚ)/100 : ℚ) : ℝ) = ((3 : ℝ)/10) ^ 2 by norm_num,
      Real.sqrt_sq (by norm_num)]
    norm_num [threshold]
  exact ⟨by decide,
    (verify_decision_rule [[0, 0]] [1/10, 1/10]).2.2.2
      ⟨ActionMode.verify, [[0, 0]], false⟩ rfl (by decide),
    hd,
    (verify_decision_rule [] [0]).2.2.1 [3/10] hd⟩

/-- C4: length-mismatch safety of the verification search.  The
instrumented search — in which comparing vectors of unequal length is
the designated error — always succeeds and agrees with the actual
search (no comparison of unequal-length vectors ever happens, so
nothing can throw there); a returned match always has the submitted
descriptor's length; and entries of different length are skipped:
filtering them away does not change the result. -/
theorem verify_length_mismatch_safe (refs : List Desc) (d : Desc) :
    findFirstMatchChecked refs d = some (findFirstMatch refs d)
    ∧ (∀ e : Desc, findFirstMatch refs d = some e → d.length = e.length)
    ∧ findFirstMatch refs d
        = findFirstMatch (refs.filter (fun e => d.length == e.length)) d :=
  ⟨findFirstMatchChecked_eq refs d,
   fun e he => findFirstMatch_some_length refs d e he,
   findFirstMatch_filter refs d⟩

/-- C4 witness: scenario D — a length-3 descriptor against a single
length-2 reference entry is processed without error and without a
match; and the matched-length clause applied to an actual match. -/
theorem verify_length_mismatch_safe_witness :
    findFirstMatchChecked [[0, 0]] [0, 0, 0] = some none
    ∧ findFirstMatch [[0, 0]] [0, 0] = some [0, 0]
    ∧ ([0, 0] : Desc).length = ([0, 0] : Desc).length := by
  have h : findFirstMatch [[0, 0]] [0, 0] = some [0, 0] := by
    norm_num [findFirstMatch, isMatch_iff_sumSq, sumSqDiff, threshold]
  refine ⟨?_, h, (verify_length_mismatch_safe [[0, 0]] [0, 0]).2.1 [0, 0] h⟩
  rw [(verify_length_mismatch_safe [[0, 0]] [0, 0, 0]).1]
  norm_num [findFirstMatch]

/-- C5: round-trip.  Exporting a (nonempty) enrollment set as the JSON
array of its descriptor arrays and importing that value through the
loader installs descriptors numerically equal to the originals, in the
same order (each original value embedded as an ordinary JS number). -/
theorem export_import_roundtrip (descs : List Desc) (h : ¬ descs = []) :
    importDescriptors (exportDescriptors descs)
      = ImportOutcome.installed (descs.map (fun d => d.map some)) := by
  have hfm : ∀ l : List Desc,
      (l.map (fun d => JsonVal.jarr (d.map JsonVal.jnum))).filterMap parseEntry
        = l.map (fun d => d.map some) := by
    intro l
    induction l with
    | nil => rfl
    | cons d rest ih =>
      simp only [List.map_cons, List.filterMap_cons, parseEntry, List.map_map]
      rw [ih]
      rfl
  rw [importDescriptors, exportDescriptors]
  dsimp only [objectValues]
  rw [hfm descs, if_neg (by simpa using h)]

/-- C5 witness: the round trip on the concrete finalized set
`[[1,0],[1,0],[1,0]]`. -/
theorem export_import_roundtrip_witness :
    ¬ ([[1, 0], [1, 0], [1, 0]] : List Desc) = []
    ∧ importDescriptors (exportDescriptors [[1, 0], [1, 0], [1, 0]])
        = ImportOutcome.installed
            [[some 1, some 0], [some 1, some 0], [some 1, some 0]] := by
  refine ⟨by decide, ?_⟩
  rw [export_import_roundtrip [[1, 0], [1, 0], [1, 0]] (by decide)]
  rfl

/-- C6: with the session in verify mode, a descriptor submitted through
the detection callback while no reference set is loaded leaves the
state unchanged and emits exactly the upload-guidance toast; and after
a successful verification (which clears the action), any further
submitted descriptor is a complete no-op (no state change, no
effects). -/
theorem verify_guidance_and_idempotent_success :
    (∀ (s : FaceState) (d : Desc), s.action = ActionMode.verify →
        s.registeredDescriptors = [] →
        onDetection s (some d) = (s, [Effect.toastUploadBeforeVerify]))
    ∧ (∀ (s : FaceState) (d d2 : Desc), s.action = ActionMode.verify →
        (findFirstMatch s.registeredDescriptors d).isSome = true →
        onDetection ((onDetection s (some d)).1) (some d2)
          = ((onDetection s (some d)).1, [])) := by
  constructor
  · intro s d ha hempty
    rw [onDetection]
    rw [if_neg (by simp [ha]), if_pos ha, handleVerify, hempty]
    rfl
  · intro s d d2 ha hmatch
    have hne : ¬ s.registeredDescriptors.length = 0 := by
      intro h0
      rw [List.length_eq_zero] at h0
      rw [h0] at hmatch
      simp [findFirstMatch] at hmatch
    obtain ⟨saved, hfm⟩ : ∃ saved, findFirstMatch s.registeredDescriptors d = some saved := by
      cases hx : findFirstMatch s.registeredDescriptors d with
      | none => rw [hx] at hmatch; simp at hmatch
      | some saved => exact ⟨saved, rfl⟩
    have h1 : (onDetection s (some d)).1 = { s with action := ActionMode.idle } := by
      rw [onDetection]
      rw [if_neg (by simp [ha]), if_pos ha, handleVerify, if_neg hne, hfm]
    rw [h1]
    rfl

/-- C6 witness: guidance toast on a concrete empty-reference state, and
the post-success no-op after the concrete match of `[0.1, 0.1]` against
`[[0, 0]]`. -/
theorem verify_guidance_and_idempotent_success_witness :
    (⟨ActionMode.verify, [], false⟩ : FaceState).action = ActionMode.verify
    ∧ onDetection ⟨ActionMode.verify, [], false⟩ (some [1])
        = (⟨ActionMode.verify, [], false⟩, [Effect.toastUploadBeforeVerify])
    ∧ (findFirstMatch [[0, 0]] [1/10, 1/10]).isSome = true
    ∧ onDetection ((onDetection ⟨ActionMode.verify, [[0, 0]], false⟩
          (some [1/10, 1/10])).1) (some [1])
        = ((onDetection ⟨ActionMode.verify, [[0, 0]], false⟩
          (some [1/10, 1/10])).1, []) := by
  have hm : (findFirstMatch [[0, 0]] [1/10, 1/10]).isSome = true := by
    norm_num [findFirstMatch, isMatch_iff_sumSq, sumSqDiff, threshold]
  exact ⟨rfl,
    verify_guidance_and_idempotent_success.1 ⟨ActionMode.verify, [], false⟩ [1] rfl rfl,
    hm,
    verify_guidance_and_idempotent_success.2 ⟨ActionMode.verify, [[0, 0]], false⟩
      [1/10, 1/10] [1] rfl hm⟩

/-- C7 counterexample: switching from enrollment to verification (the
verify-face click) does not reset the in-progress accumulation — from
a register-mode state holding one captured descriptor, the accumulated
set is still nonempty afterwards, contradicting the claimed reset. -/
theorem mode_switch_keeps_accumulation :
    ¬ ((clickVerifyFace ⟨ActionMode.register, [[1]], false⟩).1.registeredDescriptors
        = []) := by
  decide

/-- C7 (amended): the mode is one variable, so only one of the three
modes is active at a time; the accumulation is reset when entering
enrollment (register click) and replaced wholesale by
`setDescriptors`, but the transitions away from enrollment — verify,
start-camera and stop-camera clicks — leave the in-progress
accumulation untouched. -/
theorem mode_transition_reset_behavior :
    (∀ s : FaceState, s.action = ActionMode.register → ¬ s.action = ActionMode.verify)
    ∧ (∀ s : FaceState, (clickRegisterFace s).1.registeredDescriptors = []
        ∧ (clickRegisterFace s).1.registrationCompleted = false
        ∧ (clickRegisterFace s).1.action = ActionMode.register)
    ∧ (∀ s : FaceState,
        (clickVerifyFace s).1.registeredDescriptors = s.registeredDescriptors
        ∧ (clickVerifyFace s).1.action = ActionMode.verify)
    ∧ (∀ s : FaceState,
        (clickStartCamera s).1.registeredDescriptors = s.registeredDescriptors)
    ∧ (∀ s : FaceState,
        (clickStopCamera s).1.registeredDescriptors = s.registeredDescriptors)
    ∧ (∀ (s : FaceState) (descriptors : List Desc),
        (setDescriptors s descriptors).registeredDescriptors = descriptors) := by
  refine ⟨?_, fun s => ⟨rfl, rfl, rfl⟩, fun s => ⟨rfl, rfl⟩, fun s => rfl, fun s => rfl,
    fun s descriptors => rfl⟩
  intro s h1 h2
  rw [h1] at h2
  exact ActionMode.noConfusion h2

/-- C7 witness: the single-mode clause applied to a concrete
register-mode state. -/
theorem mode_transition_reset_behavior_witness :
    (⟨ActionMode.register, [], false⟩ : FaceState).action = ActionMode.register
    ∧ ¬ (⟨ActionMode.register, [], false⟩ : FaceState).action = ActionMode.verify :=
  ⟨rfl, mode_transition_reset_behavior.1 ⟨ActionMode.register, [], false⟩ rfl⟩

/-- C8 counterexample: a zero-length descriptor is not rejected — the
JS guard `!descriptor` only excludes null/undefined, so submitting an
empty vector to a fresh state appends it, contradicting the claimed
no-op for zero-length descriptors. -/
theorem zero_length_descriptor_not_noop :
    (handleRegister ⟨ActionMode.register, [], false⟩
        (some [])).1.registeredDescriptors = [[]]
    ∧ ¬ ((handleRegister ⟨ActionMode.register, [], false⟩ (some [])).1
        = ⟨ActionMode.register, [], false⟩) := by
  decide

/-- C8 (amended): a submission is a no-op exactly when the descriptor
is absent (null/undefined) or the registration is already finalized;
any present descriptor — zero-length included — is appended to the
in-progress set. -/
theorem register_submission_guards :
    (∀ s : FaceState, handleRegister s none = (s, []))
    ∧ (∀ (s : FaceState) (d : Desc), s.registrationCompleted = true →
        handleRegister s (some d) = (s, []))
    ∧ (∀ (s : FaceState) (d : Desc), s.registrationCompleted = false →
        (handleRegister s (some d)).1.registeredDescriptors
          = s.registeredDescriptors ++ [d]) := by
  refine ⟨fun s => rfl, ?_, ?_⟩
  · intro s d hc
    simp [handleRegister, hc]
  · intro s d hc
    rw [handleRegister]
    dsimp only
    rw [if_neg (by simp [hc])]
    by_cases hlen : maxCaptures ≤ (s.registeredDescriptors ++ [d]).length
    · rw [if_pos hlen]
    · rw [if_neg hlen]

/-- C8 witness: the finalized no-op and the append on concrete
states. -/
theorem register_submission_guards_witness :
    (⟨ActionMode.register, [[1]], true⟩ : FaceState).registrationCompleted = true
    ∧ handleRegister ⟨ActionMode.register, [[1]], true⟩ (some [2])
        = (⟨ActionMode.register, [[1]], true⟩, [])
    ∧ (⟨ActionMode.register, [], false⟩ : FaceState).registrationCompleted = false
    ∧ (handleRegister ⟨ActionMode.register, [], false⟩
          (some [2])).1.registeredDescriptors = ([] : List Desc) ++ [[2]] :=
  ⟨rfl, register_submission_guards.2.1 ⟨ActionMode.register, [[1]], true⟩ [2] rfl,
   rfl, register_submission_guards.2.2 ⟨ActionMode.register, [], false⟩ [2] rfl⟩

/-- C9 counterexample: the loader keeps an array entry whose values are
not numeric — `[null]` passes the array test, its element is coerced to
`0`, and the entry is installed rather than dropped (and hence the whole
file load does not fail even though no entry has numeric values). -/
theorem import_keeps_nonnumeric_entry :
    importDescriptors (JsonVal.jarr [JsonVal.jarr [JsonVal.jnull]])
      = ImportOutcome.installed [[some 0]] := by
  rfl

/-- C9 (amended): the loader validates only the array-or-object shape
of each entry — an entry is dropped (silently, with no per-entry
warning and no numeric-content check) iff it is neither an array nor an
object; the surviving entries are installed in order; and the import
fails with the empty-result error exactly when every entry is
dropped. -/
theorem import_validation_behavior (entries : List JsonVal) :
    (∀ v : JsonVal, (parseEntry v).isSome = isArrayOrObjectEntry v)
    ∧ (importDescriptors (JsonVal.jarr entries) = ImportOutcome.emptyError
        ↔ ∀ e ∈ entries, parseEntry e = none)
    ∧ (¬ entries.filterMap parseEntry = [] →
        importDescriptors (JsonVal.jarr entries)
          = ImportOutcome.installed (entries.filterMap parseEntry)) := by
  refine ⟨?_, ?_, ?_⟩
  · intro v
    cases v <;> rfl
  · rw [importDescriptors]
    dsimp only [objectValues]
    by_cases h : (entries.filterMap parseEntry).length = 0
    · rw [if_pos h]
      constructor
      · intro _
        rw [List.length_eq_zero] at h
        exact List.filterMap_eq_nil_iff.mp h
      · intro _
        rfl
    · rw [if_neg h]
      constructor
      · intro habs
        exact ImportOutcome.noConfusion habs
      · intro hall
        exact absurd (by rw [List.filterMap_eq_nil_iff.mpr hall]; rfl) h
  · intro hne
    rw [importDescriptors]
    dsimp only [objectValues]
    rw [if_neg (by simpa [List.length_eq_zero] using hne)]

/-- C9 witness: the shape clause on a concrete array entry, the
empty-result clause on a file holding only a string entry, and the
install clause on the `[[null]]` file. -/
theorem import_validation_behavior_witness :
    (parseEntry (JsonVal.jarr [JsonVal.jnull])).isSome
        = isArrayOrObjectEntry (JsonVal.jarr [JsonVal.jnull])
    ∧ (importDescriptors (JsonVal.jarr [JsonVal.jstr 3]) = ImportOutcome.emptyError
        ↔ ∀ e ∈ [JsonVal.jstr 3], parseEntry e = none)
    ∧ ¬ ([JsonVal.jarr [JsonVal.jnull]].filterMap parseEntry) = []
    ∧ importDescriptors (JsonVal.jarr [JsonVal.jarr [JsonVal.jnull]])
        = ImportOutcome.installed ([JsonVal.jarr [JsonVal.jnull]].filterMap parseEntry) := by
  have hne : ¬ ([JsonVal.jarr [JsonVal.jnull]].filterMap parseEntry) = [] := by
    intro hx
    exact List.noConfusion hx
  exact ⟨(import_validation_behavior []).1 (JsonVal.jarr [JsonVal.jnull]),
    (import_validation_behavior [JsonVal.jstr 3]).2.1,
    hne,
    (import_validation_behavior [JsonVal.jarr [JsonVal.jnull]]).2.2 hne⟩

/-- C10: a registration submission that reaches the quota through the
detection callback finalizes the state, clears the action to idle, and
every descriptor arriving afterwards is routed to neither handler —
the callback returns the state unchanged with no effects. -/
theorem finalize_clears_action (s : FaceState) (d : Desc)
    (ha : s.action = ActionMode.register)
    (hc : s.registrationCompleted = false)
    (hq : maxCaptures ≤ (s.registeredDescriptors ++ [d]).length) :
    (onDetection s (some d)).1.action = ActionMode.idle
    ∧ (onDetection s (some d)).1.registrationCompleted = true
    ∧ (∀ d2 : Desc, onDetection ((onDetection s (some d)).1) (some d2)
        = ((onDetection s (some d)).1, [])) := by
  have h1 : (onDetection s (some d)).1
      = { action := ActionMode.idle,
          registeredDescriptors := s.registeredDescriptors ++ [d],
          registrationCompleted := true } := by
    rw [onDetection, if_pos ha]
    simp only [handleRegister]
    rw [if_neg (by simp [hc]), if_pos hq]
  refine ⟨by rw [h1], by rw [h1], ?_⟩
  intro d2
  rw [h1]
  rfl

/-- C10 witness: finalization of the third capture on a concrete state
holding two descriptors, and the routing no-op on the next
submission. -/
theorem finalize_clears_action_witness :
    (⟨ActionMode.register, [[1], [2]], false⟩ : FaceState).action = ActionMode.register
    ∧ (⟨ActionMode.register, [[1], [2]], false⟩ : FaceState).registrationCompleted = false
    ∧ maxCaptures ≤ (([[1], [2]] : List Desc) ++ [[3]]).length
    ∧ (onDetection ⟨ActionMode.register, [[1], [2]], false⟩ (some [3])).1.action
        = ActionMode.idle
    ∧ onDetection ((onDetection ⟨ActionMode.register, [[1], [2]], false⟩
          (some [3])).1) (some [4])
        = ((onDetection ⟨ActionMode.register, [[1], [2]], false⟩ (some [3])).1, []) := by
  have h := finalize_clears_action ⟨ActionMode.register, [[1], [2]], false⟩ [3]
    rfl rfl (by decide)
  exact ⟨rfl, rfl, by decide, h.1, h.2.2 [4]⟩
